import Mathlib

/-
Verification of the HorizonZeroDawn_RAG retrieval-augmented query pipeline.

Shallow embedding of the Python source:
  - src/rag_chat.py   (class Chat: history trimming, telemetry state machine)
  - src/chat.py       (older Chat: identical _get_history body)
  - src/rag.py        (class RAG: retrieval glue over the qdrant fused search)
  - src/evaluation.py (IR metrics and the batch evaluation harness)

External services (tiktoken tokenizer, Azure OpenAI LLM, qdrant search,
sentence-transformers embeddings, ollama) are modelled as explicit function
parameters; everything the repository itself computes is translated
faithfully, including its control flow on failure (Python exceptions become
Option/Except error values).
-/

set_option autoImplicit false

namespace HorizonRag

/-! ## Token-budgeted history (rag_chat.py lines 88-97, chat.py lines 48-57)

Translated from Chat._get_history.  The tokenizer (tiktoken, o200k_base) is
external and appears as the parameter tokLen; TOKEN_LIMIT is the class
constant 500.  NOTE, faithfully kept from the source: the loop variable
used_tokens is initialized to 0 and never updated inside the loop, so the
condition compares each single message against the limit instead of a
running total. -/

def Chat.TOKEN_LIMIT : Nat := 500

def getHistoryLoop (tokLen : String → Nat) (token_limit : Nat) :
    List String → Nat → List String
  | [], _ => []
  | msg :: rest, used_tokens =>
    if tokLen msg + used_tokens < token_limit then
      msg :: getHistoryLoop tokLen token_limit rest used_tokens
    else
      []

def Chat.getHistory (tokLen : String → Nat) (token_limit : Nat)
    (history : List String) : List String :=
  getHistoryLoop tokLen token_limit history 0

/-- A stand-in tokenizer under which every message counts 300 tokens
(such messages exist for the real o200k_base encoding). -/
def tok300 : String → Nat := fun _ => 300

/-! ## IR metrics (evaluation.py lines 10-40)

Python list indexing out of range raises IndexError and division by zero
raises ZeroDivisionError; a function that falls off its end returns None.
All three failure shapes are modelled by Option. -/

/-- Translated from evaluation.py precision, lines 10-15: iterates cnt over
range(k), indexing items[cnt] (IndexError when items is shorter than k) and
testing membership in relevant_items. -/
def precisionLoop (items relevant_items : List String) :
    List Nat → Nat → Option Nat
  | [], relevant_cnt => some relevant_cnt
  | cnt :: rest, relevant_cnt =>
    match items[cnt]? with
    | none => none
    | some it =>
      precisionLoop items relevant_items rest
        (if it ∈ relevant_items then relevant_cnt + 1 else relevant_cnt)

def precision (items relevant_items : List String) (k : Nat) : Option ℚ :=
  if k = 0 then none
  else
    (precisionLoop items relevant_items (List.range k) 0).map
      (fun relevant_cnt => (relevant_cnt : ℚ) / (k : ℚ))

/-- Translated from evaluation.py recall, lines 18-23: iterates i over
range(k), indexing relevant_items[i] (IndexError when relevant_items is
shorter than k) and testing membership in items. -/
def recallLoop (items relevant_items : List String) :
    List Nat → Nat → Option Nat
  | [], recall_cnt => some recall_cnt
  | i :: rest, recall_cnt =>
    match relevant_items[i]? with
    | none => none
    | some r =>
      recallLoop items relevant_items rest
        (if r ∈ items then recall_cnt + 1 else recall_cnt)

def recallMetric (items relevant_items : List String) (k : Nat) : Option ℚ :=
  if k = 0 then none
  else
    (recallLoop items relevant_items (List.range k) 0).map
      (fun recall_cnt => (recall_cnt : ℚ) / (k : ℚ))

/-- Translated from evaluation.py f1_score, lines 26-31. -/
def f1_score (items relevant_items : List String) (k : Nat) : Option ℚ :=
  match precision items relevant_items k, recallMetric items relevant_items k with
  | some k_precision, some k_recall =>
    if k_precision = 0 ∧ k_recall = 0 then some 0
    else some ((2 * k_precision * k_recall) / (k_precision + k_recall))
  | _, _ => none

/-- Translated from evaluation.py first_relevant_item, lines 34-40: walks
items with enumerate, returns 1/(idx+1) on the first relevant item, returns
0 when idx reaches k without a hit, and returns None (here: none) when the
list ends first.  The relevance test precedes the idx == k test, exactly as
in the source. -/
def firstRelevantLoop (relevant_items : List String) (k : Nat) :
    List String → Nat → Option ℚ
  | [], _ => none
  | item :: rest, idx =>
    if item ∈ relevant_items then some (1 / ((idx : ℚ) + 1))
    else if idx = k then some 0
    else firstRelevantLoop relevant_items k rest (idx + 1)

def first_relevant_item (items relevant_items : List String) (k : Nat) :
    Option ℚ :=
  firstRelevantLoop relevant_items k items 0

/-! ## Reference formulations used to state the claims about the metrics -/

/-- Size of the set intersection of the two id lists, |relevant ∩ retrieved|,
as used by the claimed formula recall@k = |relevant ∩ retrieved| / k. -/
def intersectionCount (items relevant_items : List String) : Nat :=
  (relevant_items.dedup.filter (fun r => decide (r ∈ items))).length

/-- What recall actually computes, loop-free: among the first k entries of
the relevant list, how many occur in the retrieved list, over the fixed
denominator k; it fails when k = 0 or when fewer than k relevant entries
exist (Python ZeroDivisionError / IndexError). -/
def recallAmended (items relevant_items : List String) (k : Nat) : Option ℚ :=
  if k = 0 then none
  else if relevant_items.length < k then none
  else
    some ((((relevant_items.take k).countP (fun r => decide (r ∈ items))) : ℚ)
      / (k : ℚ))

/-- Zero-based index of the first entry of the list that belongs to rel,
none when no entry does. -/
def firstHitIndex (rel : List String) : List String → Option Nat
  | [] => none
  | x :: rest =>
    if x ∈ rel then some 0 else (firstHitIndex rel rest).map (fun i => i + 1)

/-- What first_relevant_item actually computes, loop-free: 1/(idx+1) when
the first hit is at index idx ≤ k (the item at index k itself is still
examined), 0 when the first hit lies beyond index k or when there is no hit
but the list extends past index k, and none (Python None) when the list
ends at or before index k without any hit. -/
def firstRelevantAmended (items relevant_items : List String) (k : Nat) :
    Option ℚ :=
  match firstHitIndex relevant_items items with
  | some idx => if idx ≤ k then some (1 / ((idx : ℚ) + 1)) else some 0
  | none => if k < items.length then some 0 else none

/-! ## Hybrid retrieval (rag.py lines 11-41, consumed at rag_chat.py 280-283)

RAG.retrieval asks qdrant for a dense search (nomic vectors) and a lexical
search (bm25) over the classification-filtered partition, fused with
Reciprocal Rank Fusion.  That whole remote call is external; its outcome,
the fused and ranked list result.points, is the parameter below.  The
repository code then returns result.points[0] — the single top point —
modelled as the head lookup (Python IndexError on an empty list becomes
none). -/

structure ScoredPoint where
  id : String
  content : String
  deriving DecidableEq

def RAG.retrieval (result_points : List ScoredPoint) : Option ScoredPoint :=
  result_points[0]?

/-- Modelled from the spec: the HybridRetriever contract says the output is
the FusedRanking — the fused, ranked list — truncated to the result limit k
(default 3), an ordered sequence of at most k passages. -/
def fusedRankingSpec (result_points : List ScoredPoint) (k : Nat) :
    List ScoredPoint :=
  result_points.take k

def pointA : ScoredPoint := { id := "a", content := "alpha" }

def pointB : ScoredPoint := { id := "b", content := "beta" }

/-! ## Orchestrator telemetry and history state (rag_chat.py)

The state a Chat object threads through get_response / store_rating /
_write_user_data / __del__: the conversation history list, the pending
in-memory row use_data, and the rows already written to the durable CSV
log (data/user_data.csv).  Wall-clock instants from time.time() and the
datetime stamp are inputs of a turn; token counts and the classification
come from the LLM stages and are likewise inputs here. -/

structure TelemetryRow where
  timestamp : Int
  used_tokens : Nat
  reword_time : Int
  rag_time : Int
  generation_time : Int
  full_response_time : Int
  query_classification : String
  query_cnt : Nat
  rating : Option Int
  deriving DecidableEq

structure TurnTimes where
  date_time : Int
  start_time : Int
  reword_time : Int
  rag_time : Int
  response_time : Int
  deriving DecidableEq

structure ChatState where
  history : List String
  use_data : Option TelemetryRow
  log : List TelemetryRow
  deriving DecidableEq

/-- State after Chat.__init__ (rag_chat.py lines 44-75) on a fresh log
file: empty history, no pending row, empty log. -/
def chatInit : ChatState :=
  { history := [], use_data := none, log := [] }

/-- The row built by Chat._store_user_data (rag_chat.py lines 220-240):
four stage durations from the captured instants, query_cnt 1, and
rating np.nan, that is unset (none). -/
def storedRow (used_tokens : Nat) (t : TurnTimes) (classification : String) :
    TelemetryRow :=
  { timestamp := t.date_time
    used_tokens := used_tokens
    reword_time := t.reword_time - t.start_time
    rag_time := t.rag_time - t.reword_time
    generation_time := t.response_time - t.rag_time
    full_response_time := t.response_time - t.start_time
    query_classification := classification
    query_cnt := 1
    rating := none }

/-- Translated from Chat._store_user_data: only the in-memory use_data
field is assigned; nothing is written to the log. -/
def Chat.storeUserData (s : ChatState) (used_tokens : Nat) (t : TurnTimes)
    (classification : String) : ChatState :=
  { s with use_data := some (storedRow used_tokens t classification) }

/-- Translated from Chat._write_user_data (rag_chat.py lines 247-251): when
a pending row exists it is appended to the CSV and flushed; in every case
use_data is reset to None afterwards. -/
def Chat.writeUserData (s : ChatState) : ChatState :=
  match s.use_data with
  | some row => { s with use_data := none, log := s.log ++ [row] }
  | none => { s with use_data := none }

/-- Translated from Chat.store_rating (rag_chat.py lines 242-245): sets the
rating key of use_data and then writes it out.  When use_data is None the
Python subscript assignment raises TypeError, modelled as none. -/
def Chat.storeRating (s : ChatState) (rating : Int) : Option ChatState :=
  match s.use_data with
  | none => none
  | some row =>
    some (Chat.writeUserData
      { s with use_data := some { row with rating := some rating } })

/-- State effect of a completed Chat.get_response turn (rag_chat.py lines
253-312) on history, use_data and the log: line 255 flushes any pending row
first, and lines 303-311 store the fresh row for this turn in memory; no
statement in the body mutates self.history, and no statement between
_store_user_data and the return writes the row out. -/
def Chat.getResponseState (s : ChatState) (used_tokens : Nat) (t : TurnTimes)
    (classification : String) : ChatState :=
  Chat.storeUserData (Chat.writeUserData s) used_tokens t classification

def sampleTimes : TurnTimes :=
  { date_time := 100, start_time := 100, reword_time := 101, rag_time := 103,
    response_time := 106 }

/-! ## Evaluation harness (evaluation.py lines 94-156)

The external services of one dataset entry — the reword LLM call plus its
json parse, the qdrant retrieval, the answer-generating LLM call, and the
generation metrics (sentence-transformer cosine similarity and the
ollama-based answer relevancy) — are oracles passed in as functions that
may fail (Except.error models a raised exception).  Everything else is the
loop of evaluate_rag, translated statement by statement; note that the loop
contains no exception handler. -/

structure EvalItem where
  question : String
  answer : String
  relevant : List String
  deriving DecidableEq

structure Reworded where
  classification : String
  query : String
  deriving DecidableEq

structure ScoredRecord where
  item : EvalItem
  precisionScore : ℚ
  recallScore : ℚ
  f1Score : ℚ
  cosineSimilarity : ℚ
  answerRelevancy : ℚ
  deriving DecidableEq

inductive EvalOutput where
  | entry : ScoredRecord → EvalOutput
  | meanReciprocalRank : ℚ → EvalOutput
  deriving DecidableEq

/-- Translated from evaluate_retrieval (evaluation.py lines 75-80): the
three at-k metrics at their default k = 1; a metric failure (IndexError /
ZeroDivisionError) propagates. -/
def evaluate_retrieval (retrieved_context relevant_context : List String) :
    Option (ℚ × ℚ × ℚ) :=
  match precision retrieved_context relevant_context 1,
      recallMetric retrieved_context relevant_context 1,
      f1_score retrieved_context relevant_context 1 with
  | some p, some r, some f => some (p, r, f)
  | _, _, _ => none

/-- The per-item body and loop of evaluate_rag (evaluation.py lines
103-146), threading the accumulating output list and the running mrr sum.
Per item, in source order: reword LLM call, retrieval truncated by [:3],
mrr += first_relevant_item(retrieved ids, relevant ids) at default k = 1
(adding a Python None would raise TypeError), the generation LLM call,
evaluate_retrieval with the relevant ids passed as first argument exactly
as at the call site, then the generation metrics.  Any failure escapes the
loop: there is no try/except in the source. -/
def evalStep (reword : String → Except String Reworded)
    (retrieve : String → String → Except String (List ScoredPoint))
    (generate : String → List String → Except String String)
    (evalGen : String → String → String → Except String (ℚ × ℚ))
    (item : EvalItem) : Except String (ScoredRecord × ℚ) :=
  match reword item.question with
  | Except.error e => Except.error e
  | Except.ok reword_dict =>
    match retrieve item.question reword_dict.classification with
    | Except.error e => Except.error e
    | Except.ok pts =>
      let retrieved_content := pts.take 3
      match first_relevant_item (retrieved_content.map ScoredPoint.id)
          item.relevant 1 with
      | none => Except.error "TypeError"
      | some contrib =>
        match generate reword_dict.query
            (retrieved_content.map ScoredPoint.content) with
        | Except.error e => Except.error e
        | Except.ok response =>
          match evaluate_retrieval item.relevant
              (retrieved_content.map ScoredPoint.id) with
          | none => Except.error "IndexError"
          | some (p, r, f) =>
            match evalGen item.question item.answer response with
            | Except.error e => Except.error e
            | Except.ok (cosSim, ansRel) =>
              Except.ok
                ({ item := item, precisionScore := p, recallScore := r,
                   f1Score := f, cosineSimilarity := cosSim,
                   answerRelevancy := ansRel }, contrib)

/-- Whether one entry of the dataset goes through every stage without a
raised exception. -/
def stepSucceeds (reword : String → Except String Reworded)
    (retrieve : String → String → Except String (List ScoredPoint))
    (generate : String → List String → Except String String)
    (evalGen : String → String → String → Except String (ℚ × ℚ))
    (item : EvalItem) : Bool :=
  match evalStep reword retrieve generate evalGen item with
  | Except.ok _ => true
  | Except.error _ => false

def evaluateRagLoop (reword : String → Except String Reworded)
    (retrieve : String → String → Except String (List ScoredPoint))
    (generate : String → List String → Except String String)
    (evalGen : String → String → String → Except String (ℚ × ℚ)) :
    List EvalItem → List EvalOutput → ℚ →
      Except String (List EvalOutput × ℚ)
  | [], acc, mrr => Except.ok (acc, mrr)
  | item :: rest, acc, mrr =>
    match evalStep reword retrieve generate evalGen item with
    | Except.error e => Except.error e
    | Except.ok (entryRecord, contrib) =>
      evaluateRagLoop reword retrieve generate evalGen rest
        (acc ++ [EvalOutput.entry entryRecord]) (mrr + contrib)

/-- Translated from evaluate_rag (evaluation.py lines 94-156): run the loop
over the dataset, then mrr /= len(test_data) (ZeroDivisionError on an empty
dataset) and append the trailing mean-reciprocal-rank record. -/
def evaluate_rag (reword : String → Except String Reworded)
    (retrieve : String → String → Except String (List ScoredPoint))
    (generate : String → List String → Except String String)
    (evalGen : String → String → String → Except String (ℚ × ℚ))
    (test_data : List EvalItem) : Except String (List EvalOutput) :=
  match evaluateRagLoop reword retrieve generate evalGen test_data [] 0 with
  | Except.error e => Except.error e
  | Except.ok (evaluated_content, mrr) =>
    if test_data.length = 0 then Except.error "ZeroDivisionError"
    else
      Except.ok (evaluated_content ++
        [EvalOutput.meanReciprocalRank (mrr / (test_data.length : ℚ))])

/-! ### Concrete oracles and datasets used in the closed statements -/

def rewordOk : String → Except String Reworded := fun q =>
  Except.ok { classification := "machine", query := q }

/-- An oracle whose LLM call fails on the first question only. -/
def rewordFailFirst : String → Except String Reworded := fun q =>
  if q = "q1" then Except.error "UpstreamUnavailable"
  else Except.ok { classification := "machine", query := q }

def retrieveOk : String → String → Except String (List ScoredPoint) :=
  fun _ _ => Except.ok [{ id := "p1", content := "c1" }]

def generateOk : String → List String → Except String String :=
  fun _ _ => Except.ok "generated answer"

def evalGenOk : String → String → String → Except String (ℚ × ℚ) :=
  fun _ _ _ => Except.ok (1, 1)

def item0 : EvalItem := { question := "q1", answer := "a1", relevant := ["p1"] }

def item1 : EvalItem := { question := "q2", answer := "a2", relevant := ["p1"] }

/-- The fully scored record the all-ok oracles produce for item1. -/
def okRecord : ScoredRecord :=
  { item := item1, precisionScore := 1, recallScore := 1, f1Score := 1,
    cosineSimilarity := 1, answerRelevancy := 1 }

/-- The output of a fully successful run of the harness on [item1]. -/
def okRun : List EvalOutput :=
  [EvalOutput.entry okRecord, EvalOutput.meanReciprocalRank 1]

/-!
# Theorems

One theorem per claim C1..C10, with the auxiliary lemmas they share.
-/

/-- The trimming loop only ever removes messages from the tail: whatever it
returns is an initial segment of the list it was given. -/
theorem getHistoryLoop_keeps_front (tokLen : String → Nat) (token_limit : Nat) :
    ∀ (hist : List String) (used : Nat),
      ∃ t, hist = getHistoryLoop tokLen token_limit hist used ++ t := by
  intro hist
  induction hist with
  | nil => intro used; exact ⟨[], rfl⟩
  | cons msg rest ih =>
    intro used
    by_cases h : tokLen msg + used < token_limit
    · obtain ⟨t, ht⟩ := ih used
      refine ⟨t, ?_⟩
      simp only [getHistoryLoop, if_pos h, List.cons_append]
      exact congrArg (msg :: ·) ht
    · exact ⟨msg :: rest, by simp [getHistoryLoop, if_neg h]⟩

/-- C10: Chat._get_history walks the stored history from the oldest message
forward and stops at the first excluded message, so the trimmed history it
returns is always an initial segment of the stored oldest-first history:
whenever messages are dropped, they are the most recent ones, never the
oldest. -/
theorem get_history_keeps_oldest (tokLen : String → Nat) (token_limit : Nat)
    (history : List String) :
    ∃ t, history = Chat.getHistory tokLen token_limit history ++ t :=
  getHistoryLoop_keeps_front tokLen token_limit history 0

/-- C1: the budget is violated — because the loop in Chat._get_history never
adds the counted tokens into used_tokens, two messages of 300 tokens each
are both returned under the TOKEN_LIMIT of 500, although including the
second pushes the running token count to 600 ≥ 500.  The claim that no
included message ever pushes the running count to the limit is false of the
code. -/
theorem get_history_exceeds_budget :
    Chat.getHistory tok300 Chat.TOKEN_LIMIT ["older message", "newer message"] =
      ["older message", "newer message"] ∧
    Chat.TOKEN_LIMIT ≤
      ((Chat.getHistory tok300 Chat.TOKEN_LIMIT
        ["older message", "newer message"]).map tok300).sum := by
  constructor
  · rfl
  · decide

/-- C2: RAG.retrieval does not return the fused ranking truncated to k — it
returns result.points[0], a single passage.  On a fused list of two
passages the code yields just the top passage where the spec-level output
is the two-element list; on an empty fused list it fails (IndexError)
instead of returning an empty ranking. -/
theorem retrieval_returns_single_point :
    RAG.retrieval [pointA, pointB] = some pointA ∧
    fusedRankingSpec [pointA, pointB] 3 = [pointA, pointB] ∧
    RAG.retrieval [] = none := by
  exact ⟨rfl, rfl, rfl⟩

/-- C7: none of the metric operations survives the empty-input scenario: at
k = 3 with empty retrieved list and empty relevant set, precision and
recall index past the end of their lists (IndexError, modelled none),
f1_score inherits that failure, and first_relevant_item falls off the empty
list returning Python None (none) — not the claimed 0. -/
theorem metrics_fail_on_empty_input :
    precision [] [] 3 = none ∧ recallMetric [] [] 3 = none ∧
    f1_score [] [] 3 = none ∧ first_relevant_item [] [] 3 = none := by
  exact ⟨rfl, rfl, rfl, rfl⟩

/-- C5 counterexample: recall does not compute |relevant ∩ retrieved| / k.
With retrieved = ["b"], relevant = ["a", "b"] and k = 1 the intersection
has one element so the claimed formula gives 1, but the code inspects only
relevant_items[0] = "a", misses, and returns 0. -/
theorem recall_formula_counterexample :
    recallMetric ["b"] ["a", "b"] 1 = some 0 ∧
    ((intersectionCount ["b"] ["a", "b"] : ℚ) / (1 : ℚ)) = 1 ∧
    recallMetric ["b"] ["a", "b"] 1 ≠
      some ((intersectionCount ["b"] ["a", "b"] : ℚ) / (1 : ℚ)) := by
  have hcnt : intersectionCount ["b"] ["a", "b"] = 1 := by decide
  have h1 : recallMetric ["b"] ["a", "b"] 1 = some 0 := by
    simp [recallMetric, recallLoop]
  refine ⟨h1, ?_, ?_⟩
  · rw [hcnt]; norm_num
  · rw [h1, hcnt]
    intro h
    rw [Option.some.injEq] at h
    norm_num at h

/-- C6 counterexample: with items = ["a", "b"], relevant = ["b"], k = 1, no
relevant item occurs among the first k = 1 items, yet first_relevant_item
returns 1/2 (the hit at index 1 = k is still counted), not the claimed 0. -/
theorem first_relevant_boundary_counterexample :
    firstHitIndex ["b"] (List.take 1 ["a", "b"]) = none ∧
    first_relevant_item ["a", "b"] ["b"] 1 = some (1 / 2) ∧
    first_relevant_item ["a", "b"] ["b"] 1 ≠ some 0 := by
  have h2 : first_relevant_item ["a", "b"] ["b"] 1 = some (1 / 2) := by
    simp [first_relevant_item, firstRelevantLoop]
    norm_num
  refine ⟨rfl, h2, ?_⟩
  rw [h2]
  intro h
  rw [Option.some.injEq] at h
  norm_num at h

/-- C3 counterexample: completing a turn does not append a telemetry row to
the durable log.  From a fresh Chat, one completed get_response turn leaves
the log empty; the one record with rating unset exists only in the
in-memory use_data field. -/
theorem telemetry_row_not_written_immediately :
    (Chat.getResponseState chatInit 42 sampleTimes "machine").log = [] ∧
    (Chat.getResponseState chatInit 42 sampleTimes "machine").use_data =
      some (storedRow 42 sampleTimes "machine") := by
  exact ⟨rfl, rfl⟩

/-- C9: Chat._write_user_data always clears use_data to None, and a second
flush is a no-op: it changes nothing, in particular it appends no second
row for the same turn, regardless of whether the rating call, the start of
the next query or finalization triggered the first flush. -/
theorem write_user_data_flushes_once (s : ChatState) :
    (Chat.writeUserData s).use_data = none ∧
    Chat.writeUserData (Chat.writeUserData s) = Chat.writeUserData s := by
  cases s with
  | mk history use_data log => cases use_data <;> simp [Chat.writeUserData]

/-- C4: the state effect of a completed get_response turn on the
conversation history — no statement of the method appends the user turn or
the assistant turn, so self.history is left exactly as it was (and hence
stays empty forever, since nothing else writes it), contrary to the claim
that both turns are appended on completion. -/
theorem get_response_leaves_history_unchanged (s : ChatState)
    (used_tokens : Nat) (t : TurnTimes) (classification : String) :
    (Chat.getResponseState s used_tokens t classification).history =
      s.history := by
  cases s with
  | mk history use_data log => cases use_data <;> rfl

/-- C3 amended: on completion, exactly one telemetry record with rating
unset is created as the in-memory pending record (use_data) — the durable
log is unchanged at that point.  The record reaches the log at the next
flush: a feedback call first sets the pending record's rating and then
writes it, producing exactly one row for the turn with the rating set, and
a plain flush (start of the next query, or finalization) writes the one
unrated row. -/
theorem telemetry_one_row_deferred (s : ChatState) (h : s.use_data = none)
    (used_tokens : Nat) (t : TurnTimes) (classification : String) (r : Int) :
    (Chat.getResponseState s used_tokens t classification).log = s.log ∧
    (Chat.getResponseState s used_tokens t classification).use_data =
      some (storedRow used_tokens t classification) ∧
    (storedRow used_tokens t classification).rating = none ∧
    Chat.storeRating (Chat.getResponseState s used_tokens t classification) r =
      some { history := s.history, use_data := none,
             log := s.log ++
               [{ storedRow used_tokens t classification with
                  rating := some r }] } ∧
    (Chat.writeUserData
        (Chat.getResponseState s used_tokens t classification)).log =
      s.log ++ [storedRow used_tokens t classification] := by
  cases s with
  | mk history use_data log =>
    simp only at h
    subst h
    exact ⟨rfl, rfl, rfl, rfl, rfl⟩

/-- Witness for the amended C3 statement at a fresh Chat state. -/
theorem telemetry_one_row_deferred_witness :
    (Chat.getResponseState chatInit 42 sampleTimes "machine").log =
      chatInit.log ∧
    (Chat.getResponseState chatInit 42 sampleTimes "machine").use_data =
      some (storedRow 42 sampleTimes "machine") ∧
    (storedRow 42 sampleTimes "machine").rating = none ∧
    Chat.storeRating (Chat.getResponseState chatInit 42 sampleTimes "machine")
        1 =
      some { history := chatInit.history, use_data := none,
             log := chatInit.log ++
               [{ storedRow 42 sampleTimes "machine" with rating := some 1 }] } ∧
    (Chat.writeUserData
        (Chat.getResponseState chatInit 42 sampleTimes "machine")).log =
      chatInit.log ++ [storedRow 42 sampleTimes "machine"] :=
  telemetry_one_row_deferred chatInit rfl 42 sampleTimes "machine" 1

/-- Behaviour of the enumerate loop of first_relevant_item from an
arbitrary starting index n ≤ k, phrased through the index of the first hit
in the remaining list. -/
theorem firstRelevantLoop_spec (relevant_items : List String) (k : Nat) :
    ∀ (l : List String) (n : Nat), n ≤ k →
      firstRelevantLoop relevant_items k l n =
        match firstHitIndex relevant_items l with
        | some i =>
          if n + i ≤ k then some (1 / (((n + i : Nat) : ℚ) + 1)) else some 0
        | none => if k < n + l.length then some 0 else none := by
  intro l
  induction l with
  | nil =>
    intro n hn
    simp [firstRelevantLoop, firstHitIndex, Nat.not_lt.mpr hn]
  | cons x rest ih =>
    intro n hn
    by_cases hx : x ∈ relevant_items
    · simp [firstRelevantLoop, firstHitIndex, hx, hn]
    · by_cases hnk : n = k
      · subst hnk
        have hloop0 : firstRelevantLoop relevant_items n (x :: rest) n =
            some 0 := by
          simp [firstRelevantLoop, hx]
        rw [hloop0]
        cases hfh : firstHitIndex relevant_items rest with
        | some i =>
          have hcond : ¬ (n + (i + 1) ≤ n) := by omega
          simp [firstHitIndex, hx, hfh, hcond]
        | none =>
          have hcond : n < n + (rest.length + 1) := by omega
          simp [firstHitIndex, hx, hfh, hcond]
      · have hstep : n + 1 ≤ k := by omega
        have hloop : firstRelevantLoop relevant_items k (x :: rest) n =
            firstRelevantLoop relevant_items k rest (n + 1) := by
          simp [firstRelevantLoop, hx, hnk]
        rw [hloop, ih (n + 1) hstep]
        cases hfh : firstHitIndex relevant_items rest with
        | some i =>
          simp only [firstHitIndex, if_neg hx, hfh, Option.map_some']
          have harith : n + 1 + i = n + (i + 1) := by omega
          rw [harith]
        | none =>
          simp only [firstHitIndex, if_neg hx, hfh, Option.map_none',
            List.length_cons]
          have harith : n + 1 + rest.length = n + (rest.length + 1) := by
            omega
          rw [harith]

/-- C6 amended: the reciprocal-rank contribution is 1/(idx+1) when the
first relevant hit sits at zero-based index idx ≤ k — the item at index k
itself is still examined, because the source tests relevance before the
idx == k cutoff — it is 0 when the first hit lies beyond index k or when
there is no hit but the items list extends past index k, and it is Python
None (no number at all) when the items list ends at or before index k
without any relevant hit. -/
theorem first_relevant_item_boundary (items relevant_items : List String)
    (k : Nat) :
    first_relevant_item items relevant_items k =
      firstRelevantAmended items relevant_items k := by
  have h := firstRelevantLoop_spec relevant_items k items 0 (Nat.zero_le k)
  unfold first_relevant_item firstRelevantAmended
  rw [h]
  cases hfh : firstHitIndex relevant_items items <;> simp

/-- When every index is in range, the recall loop counts how many of the
indexed relevant entries occur in the retrieved list. -/
theorem recallLoop_all_in_range (items relevant_items : List String) :
    ∀ (idxs : List Nat) (cnt : Nat),
      (∀ i ∈ idxs, i < relevant_items.length) →
      recallLoop items relevant_items idxs cnt =
        some (cnt + (idxs.filterMap (fun i => relevant_items[i]?)).countP
          (fun r => decide (r ∈ items))) := by
  intro idxs
  induction idxs with
  | nil => intro cnt h; simp [recallLoop]
  | cons i rest ih =>
    intro cnt h
    have hi : i < relevant_items.length := h i (by simp)
    have hsome : relevant_items[i]? = some relevant_items[i] :=
      List.getElem?_eq_getElem hi
    simp only [recallLoop, hsome]
    rw [ih _ (fun j hj => h j (List.mem_cons_of_mem i hj))]
    simp only [List.filterMap_cons, hsome, List.countP_cons]
    by_cases hmem : relevant_items[i] ∈ items
    all_goals simp [hmem]
    all_goals omega

/-- An index at or past the end of the relevant list makes the recall loop
fail (Python IndexError), wherever it occurs in the index list. -/
theorem recallLoop_out_of_range (items relevant_items : List String) :
    ∀ (idxs : List Nat) (cnt : Nat) (j : Nat), j ∈ idxs →
      relevant_items.length ≤ j →
      recallLoop items relevant_items idxs cnt = none := by
  intro idxs
  induction idxs with
  | nil => intro cnt j hj _; cases hj
  | cons i rest ih =>
    intro cnt j hj hlen
    rcases List.mem_cons.mp hj with rfl | hmem
    · have hnone : relevant_items[j]? = none := by
        rw [List.getElem?_eq_none_iff]
        exact hlen
      simp [recallLoop, hnone]
    · cases hsome : relevant_items[i]? with
      | none => simp [recallLoop, hsome]
      | some r =>
        simp only [recallLoop, hsome]
        exact ih _ j hmem hlen

/-- Looking up the indices 0..k-1 in a list keeps exactly its first k
elements. -/
theorem filterMap_range_getElem (l : List String) :
    ∀ k : Nat, (List.range k).filterMap (fun i => l[i]?) = l.take k := by
  intro k
  induction k with
  | zero => simp
  | succ k ih =>
    rw [List.range_succ, List.filterMap_append, ih, List.take_succ]
    cases h : l[k]? <;> simp [h]

/-- C5 amended: recall@k counts how many of the first k entries of the
relevant list occur in the retrieved list and divides by the fixed k (not
by the number of relevant items); it is not |relevant ∩ retrieved| / k —
relevant entries beyond position k are ignored — and it fails with an
IndexError when fewer than k relevant entries exist (and with a
ZeroDivisionError when k = 0). -/
theorem recall_counts_first_k_relevant (items relevant_items : List String)
    (k : Nat) :
    recallMetric items relevant_items k =
      recallAmended items relevant_items k := by
  unfold recallMetric recallAmended
  by_cases hk : k = 0
  · simp [hk]
  · simp only [if_neg hk]
    by_cases hlen : relevant_items.length < k
    · rw [recallLoop_out_of_range items relevant_items (List.range k) 0
        relevant_items.length (List.mem_range.mpr hlen) (le_refl _)]
      simp [hlen]
    · have hle : k ≤ relevant_items.length := Nat.not_lt.mp hlen
      rw [recallLoop_all_in_range items relevant_items (List.range k) 0
        (fun i hi => lt_of_lt_of_le (List.mem_range.mp hi) hle)]
      simp [hlen, filterMap_range_getElem]

/-- C8 counterexample: a dataset of two entries where the first entry's
reword LLM call raises makes the whole run abort with that error — no
flagged entry is recorded, the second entry is never scored, and no
trailing mean-reciprocal-rank record is produced. -/
theorem evaluate_rag_abort_counterexample :
    evaluate_rag rewordFailFirst retrieveOk generateOk evalGenOk
      [item0, item1] = Except.error "UpstreamUnavailable" := by
  rfl

/-- A successful run of the evaluation loop requires every entry of the
dataset to have been processed without a failure. -/
theorem evaluateRagLoop_ok_all_steps
    (reword : String → Except String Reworded)
    (retrieve : String → String → Except String (List ScoredPoint))
    (generate : String → List String → Except String String)
    (evalGen : String → String → String → Except String (ℚ × ℚ)) :
    ∀ (test_data : List EvalItem) (acc : List EvalOutput) (mrr : ℚ)
      (res : List EvalOutput × ℚ),
      evaluateRagLoop reword retrieve generate evalGen test_data acc mrr =
        Except.ok res →
      ∀ item ∈ test_data,
        stepSucceeds reword retrieve generate evalGen item = true := by
  intro test_data
  induction test_data with
  | nil => intro acc mrr res _ item hmem; cases hmem
  | cons hd rest ih =>
    intro acc mrr res h item hmem
    cases hstep : evalStep reword retrieve generate evalGen hd with
    | error e =>
      simp only [evaluateRagLoop, hstep] at h
      cases h
    | ok v =>
      obtain ⟨entryRecord, contrib⟩ := v
      simp only [evaluateRagLoop, hstep] at h
      rcases List.mem_cons.mp hmem with rfl | hmem2
      · simp [stepSucceeds, hstep]
      · exact ih _ _ _ h item hmem2

/-- C8 amended: evaluate_rag does not downgrade a failing entry to a
flagged-skip — it has no exception handler, so a run only produces an
output list when every entry's LLM calls and metric computations
succeeded; a single entry's failure aborts the whole batch with that
error, and neither the remaining entries nor the trailing
mean-reciprocal-rank record are emitted. -/
theorem evaluate_rag_propagates_entry_failure
    (reword : String → Except String Reworded)
    (retrieve : String → String → Except String (List ScoredPoint))
    (generate : String → List String → Except String String)
    (evalGen : String → String → String → Except String (ℚ × ℚ))
    (test_data : List EvalItem) (out : List EvalOutput)
    (h : evaluate_rag reword retrieve generate evalGen test_data =
      Except.ok out) :
    ∀ item ∈ test_data,
      stepSucceeds reword retrieve generate evalGen item = true := by
  unfold evaluate_rag at h
  cases hloop : evaluateRagLoop reword retrieve generate evalGen
      test_data [] 0 with
  | error e => rw [hloop] at h; cases h
  | ok p =>
    exact evaluateRagLoop_ok_all_steps reword retrieve generate evalGen
      test_data [] 0 p hloop

/-- Witness for the amended C8 statement: a fully successful single-entry
run, to which the theorem applies. -/
theorem evaluate_rag_propagates_entry_failure_witness :
    stepSucceeds rewordOk retrieveOk generateOk evalGenOk item1 = true :=
  evaluate_rag_propagates_entry_failure rewordOk retrieveOk generateOk
    evalGenOk [item1] okRun
    (by
      simp [evaluate_rag, evaluateRagLoop, evalStep, evaluate_retrieval,
        precision, recallMetric, f1_score, precisionLoop, recallLoop,
        first_relevant_item, firstRelevantLoop, rewordOk, retrieveOk,
        generateOk, evalGenOk, item1, okRun, okRecord]
      norm_num)
    item1 (by simp)

end HorizonRag
